import Mathlib

/-!
Shallow embedding of the CHIP-8 interpreter in `src/interp/src/main.rs`.

Machine integers (`u8`, `u16`) are modelled as `Nat` with an explicit
`% 256` / `% 65536` at the operations where the Rust code wraps.  The
fixed-size Rust arrays `[u8; 4096]` (memory), `[u8; 256]` (display) and
`[u8; 16]` (registers) are modelled as total functions `Nat → Nat`
together with the array's length as an explicit bound: every access the
source performs is bound-checked exactly where Rust indexing would
panic, and a panic is `none`, so fallible operations return `Option`.
External effects are passed as parameters: the value returned by
`rand()` and the key-state predicate backing `is_key_down`.  Rendering
(`draw`) performs no state mutation and is omitted from `execute`'s
state transition.  The `println!` diagnostic branches leave the state
unchanged.
-/

namespace Chip8

/-- Pointwise update of a function-modelled array cell. -/
def setIdx (f : Nat → Nat) (i v : Nat) : Nat → Nat :=
  fun j => if j = i then v else f j

/-- Font table `FONT`: 16 glyphs of 5 bytes each, copied to the start of
memory by `init_font`. -/
def FONT : List Nat :=
  [0xF0, 0x90, 0x90, 0x90, 0xF0,
   0x20, 0x60, 0x20, 0x20, 0x70,
   0xF0, 0x10, 0xF0, 0x80, 0xF0,
   0xF0, 0x10, 0xF0, 0x10, 0xF0,
   0x90, 0x90, 0xF0, 0x10, 0x10,
   0xF0, 0x80, 0xF0, 0x10, 0xF0,
   0xF0, 0x80, 0xF0, 0x90, 0xF0,
   0xF0, 0x10, 0x20, 0x40, 0x40,
   0xF0, 0x90, 0xF0, 0x90, 0xF0,
   0xF0, 0x90, 0xF0, 0x10, 0xF0,
   0xF0, 0x90, 0xF0, 0x90, 0x90,
   0xE0, 0x90, 0xE0, 0x90, 0xE0,
   0xF0, 0x80, 0x80, 0x80, 0xF0,
   0xE0, 0x90, 0x90, 0x90, 0xE0,
   0xF0, 0x80, 0xF0, 0x80, 0xF0,
   0xF0, 0x80, 0xF0, 0x80, 0x80]

/-- Constant `TOTAL_PIXELS = 64 * 32`. -/
def TOTAL_PIXELS : Nat := 64 * 32

/-- Byte length of the main memory array `[u8; 4096]`. -/
def MEM_SIZE : Nat := 4096

/-- Byte length of the display array `[u8; 256]`. -/
def DISP_SIZE : Nat := 256

/-- Number of general-purpose registers, the length of `[u8; 16]`. -/
def REG_COUNT : Nat := 16

/-- The call stack: the source's owned chain of boxed `Frame`s
(`top` / `next` links) is exactly a cons list of `u16` values. -/
abbrev Stack := List Nat

/-- Method `Stack::push`: a new frame holding `value` becomes the top. -/
def Stack.push (s : Stack) (value : Nat) : Stack := value :: s

/-- Method `Stack::pop`: removes and returns the top frame's value, or
`none` when the stack is empty; also returns the remaining stack
(the source mutates `self`). -/
def Stack.pop : Stack → Option Nat × Stack
  | [] => (none, [])
  | value :: next => (some value, next)

/-- Function `init_font`: a 4096-byte zeroed memory with `FONT` copied
over its first 80 bytes.  As a function: byte `i` is `FONT[i]` for
`i < 80` and 0 past that (`List.getD` supplies the 0 default). -/
def init_font : Nat → Nat := fun i => FONT.getD i 0

/-- The `Emulator` state: memory, bit-packed display, program counter,
index register, call stack, the two timer counters (the source keeps
them behind `Arc<Mutex<u8>>`; here they are plain fields), and the 16
general-purpose registers. -/
structure Emulator where
  mem   : Nat → Nat
  disp  : Nat → Nat
  pc    : Nat
  idx   : Nat
  stack : Stack
  delay : Nat
  sound : Nat
  reg   : Nat → Nat

/-- Constant `Emulator::PROGRAM_START`. -/
def Emulator.PROGRAM_START : Nat := 0x200

/-- Method `Emulator::init`. -/
def Emulator.init : Emulator :=
  { mem := init_font
    disp := fun _ => 0
    pc := Emulator.PROGRAM_START
    idx := 0
    stack := []
    delay := 0
    sound := 0
    reg := fun _ => 0 }

/-- Method `Emulator::getWord`: `self.mem[addr]`; an index at or past the
end of memory is a Rust panic, hence `none`. -/
def Emulator.getWord (e : Emulator) (addr : Nat) : Option Nat :=
  if addr < MEM_SIZE then some (e.mem addr) else none

/-- Method `Emulator::putWord`: `self.mem[addr] = value`, panicking
(`none`) out of bounds. -/
def Emulator.putWord (e : Emulator) (addr value : Nat) : Option Emulator :=
  if addr < MEM_SIZE then some { e with mem := setIdx e.mem addr value }
  else none

/-- Method `Emulator::getDWord`: big-endian 16-bit read of
`mem[addr], mem[addr+1]`. -/
def Emulator.getDWord (e : Emulator) (addr : Nat) : Option Nat := do
  let msb ← e.getWord addr
  let lsb ← e.getWord (addr + 1)
  return (msb <<< 8) ||| lsb

/-- Method `Emulator::putDWord`: big-endian 16-bit write. -/
def Emulator.putDWord (e : Emulator) (addr value : Nat) : Option Emulator := do
  let lsb := value &&& 0xff
  let msb := (value >>> 8) &&& 0xff
  let e1 ← e.putWord addr msb
  e1.putWord (addr + 1) lsb

/-- Method `Emulator::loadROM`, the `Ok(bytes)` branch: copies `bytes`
into `mem[0x200 .. 0x200 + bytes.len()]`.  `copy_from_slice` panics
(`none`) when the destination range runs past the end of memory; it
performs no partial copy in that case. -/
def Emulator.loadROM (e : Emulator) (bytes : List Nat) : Option Emulator :=
  if Emulator.PROGRAM_START + bytes.length ≤ MEM_SIZE then
    some { e with
      mem := fun a =>
        if Emulator.PROGRAM_START ≤ a ∧ a < Emulator.PROGRAM_START + bytes.length
        then bytes.getD (a - Emulator.PROGRAM_START) 0
        else e.mem a }
  else none

/-- Method `Emulator::readPixel`: extracts bit `pixel % 8` of display
byte `(pixel - pixel % 8) / 8` (no wrap applied to the byte index). -/
def Emulator.readPixel (e : Emulator) (pixel : Nat) : Option Nat := do
  let px_o := pixel % 8
  let px_i := (pixel - px_o) / 8
  if px_i < DISP_SIZE then return (e.disp px_i >>> px_o) &&& 0x1
  else none

/-- Method `Emulator::writePixel`: XORs `value << px_o` into display byte
`((pixel - px_o) / 8) % TOTAL_PIXELS` and returns 1 when the byte is
unchanged by the XOR, 0 otherwise, alongside the updated state.  The
`u8` shift truncates to 8 bits. -/
def Emulator.writePixel (e : Emulator) (pixel value : Nat) :
    Option (Emulator × Nat) := do
  let px_o := pixel % 8
  let px_i := ((pixel - px_o) / 8) % TOTAL_PIXELS
  if px_i < DISP_SIZE then
    let old := e.disp px_i
    let nb := old ^^^ ((value <<< px_o) % 256)
    let e2 : Emulator := { e with disp := setIdx e.disp px_i nb }
    return (e2, if old == nb then 1 else 0)
  else none

/-- One decrement step of a timer counter, the body of `tick`'s guarded
`if *d > 0 { *d -= 1 }`. -/
def tickTimer (t : Nat) : Nat := if t > 0 then t - 1 else t

/-- One iteration of the `tick` loop: both timers decremented toward
zero, never below. -/
def tick1 (delay sound : Nat) : Nat × Nat := (tickTimer delay, tickTimer sound)

/-- Decoded `Instruction`: opcode nibble plus up to three optional
operand fields. -/
structure Instruction where
  opcode : Nat
  op1 : Option Nat
  op2 : Option Nat
  op3 : Option Nat

/-- Layout `PARSE_FORMAT_1` (`OPCODE addr`): one 12-bit operand. -/
def PARSE_FORMAT_1 (raw : Nat) (instr : Instruction) : Instruction :=
  { instr with op1 := some (raw &&& 0xFFF) }

/-- Layout `PARSE_FORMAT_2` (`OPCODE Vx byte`): 4-bit register index and
8-bit immediate. -/
def PARSE_FORMAT_2 (raw : Nat) (instr : Instruction) : Instruction :=
  { instr with op1 := some ((raw >>> 8) &&& 0xF), op2 := some (raw &&& 0xFF) }

/-- Layout `PARSE_FORMAT_3` (`OPCODE Vx Vy nibble`): two 4-bit register
indices and a 4-bit immediate. -/
def PARSE_FORMAT_3 (raw : Nat) (instr : Instruction) : Instruction :=
  { instr with op1 := some ((raw >>> 8) &&& 0xF)
             , op2 := some ((raw >>> 4) &&& 0xF)
             , op3 := some (raw &&& 0xF) }

/-- Constructor `Instruction::new`: selects a parse layout from the
opcode nibble.  Note the dispatch lists: 0x9 appears in none of them, so
a 0x9-prefixed word decodes with all operands `none`. -/
def Instruction.new (raw : Nat) : Instruction :=
  let instr : Instruction :=
    { opcode := (raw >>> 12) &&& 0xf, op1 := none, op2 := none, op3 := none }
  match instr.opcode with
  | 0x0 | 0x1 | 0x2 | 0xA | 0xB => PARSE_FORMAT_1 raw instr
  | 0x3 | 0x4 | 0x6 | 0x7 | 0xC | 0xE | 0xF => PARSE_FORMAT_2 raw instr
  | 0x5 | 0x8 | 0xD => PARSE_FORMAT_3 raw instr
  | _ => instr

/-- Function `fetch`: reads the big-endian word at `pc` and advances `pc`
by 2 (with `u16` wraparound). -/
def fetch (e : Emulator) : Option (Nat × Emulator) := do
  let instr ← e.getDWord e.pc
  return (instr, { e with pc := (e.pc + 2) % 65536 })

/-- Function `decode`. -/
def decode (dword : Nat) : Instruction := Instruction.new dword

/-- Register read `emu.reg[i]`, panicking (`none`) out of bounds. -/
def Emulator.regGet (e : Emulator) (i : Nat) : Option Nat :=
  if i < REG_COUNT then some (e.reg i) else none

/-- Register write `emu.reg[i] = v`, panicking (`none`) out of bounds. -/
def Emulator.regSet (e : Emulator) (i v : Nat) : Option Emulator :=
  if i < REG_COUNT then some { e with reg := setIdx e.reg i v }
  else none

/-- Sprite read in the draw case: `sprite[i] = emu.getWord(emu.idx + i)`
for `i` in `0..n`. -/
def readSprite (e : Emulator) (n : Nat) : Option (List Nat) :=
  (List.range n).mapM (fun i => e.getWord (e.idx + i))

/-- Inner draw loop over the 8 sprite columns `o`, accumulating the
collision flag `VF`. -/
def drawCols (e : Emulator) (byte px vf : Nat) :
    List Nat → Option (Emulator × Nat)
  | [] => some (e, vf)
  | o :: rest => do
    let (e2, r) ← e.writePixel (px + o) ((byte >>> (7 - o)) &&& 0x1)
    drawCols e2 byte px (if r == 1 then 1 else vf) rest

/-- Outer draw loop over the sprite rows: after each row `px` advances by
64 and the loop breaks once `px ≥ TOTAL_PIXELS`. -/
def drawRows (e : Emulator) (px vf : Nat) :
    List Nat → Option (Emulator × Nat)
  | [] => some (e, vf)
  | byte :: rest => do
    let (e2, vf2) ← drawCols e byte px vf [0, 1, 2, 3, 4, 5, 6, 7]
    let px2 := px + 64
    if px2 ≥ TOTAL_PIXELS then some (e2, vf2) else drawRows e2 px2 vf2 rest

/-- The `0xF_55` loop: `for i in 0..x { mem[idx] = reg[i]; idx += 1 }`
(the bound is exclusive; `emu.idx` itself is not modified, the source
increments a local copy). -/
def storeRegs (e : Emulator) (a : Nat) : List Nat → Option Emulator
  | [] => some e
  | i :: rest => do
    let rv ← e.regGet i
    let e1 ← e.putWord a rv
    storeRegs e1 (a + 1) rest

/-- The `0xF_65` loop: `for i in 0..x { reg[i] = mem[idx]; idx += 1 }`
(exclusive bound, local index copy). -/
def loadRegs (e : Emulator) (a : Nat) : List Nat → Option Emulator
  | [] => some e
  | i :: rest => do
    let mv ← e.getWord a
    let e1 ← e.regSet i mv
    loadRegs e1 (a + 1) rest

/-- Function `execute`: the per-instruction state transition.  `randv` is
the value `rand()` returned and `key i` the `is_key_down` state of the
physical key mapped to hex key `i`.  Diagnostic `println!` branches
leave the state unchanged (`some e`); a Rust panic is `none`. -/
def execute (e : Emulator) (instr : Instruction) (randv : Nat)
    (key : Nat → Bool) : Option Emulator :=
  match instr.opcode with
  | 0x0 =>
    match instr.op1 with
    | some 0x0E0 => some { e with disp := fun _ => 0 }
    | some 0x0EE =>
      match Stack.pop e.stack with
      | (some addr, s2) => some { e with pc := addr, stack := s2 }
      | (none, _) => some e
    | _ => some e
  | 0x1 =>
    match instr.op1 with
    | some n => some { e with pc := n }
    | none => some e
  | 0x2 =>
    match instr.op1 with
    | some n => some { e with stack := Stack.push e.stack e.pc, pc := n }
    | none => some e
  | 0x3 =>
    match instr.op1, instr.op2 with
    | some x, some b => do
      let rx ← e.regGet x
      if rx == b % 256 then some { e with pc := (e.pc + 2) % 65536 }
      else some e
    | _, _ => some e
  | 0x4 =>
    match instr.op1, instr.op2 with
    | some x, some b => do
      let rx ← e.regGet x
      if rx != b % 256 then some { e with pc := (e.pc + 2) % 65536 }
      else some e
    | _, _ => some e
  | 0x5 =>
    match instr.op1, instr.op2 with
    | some x, some y => do
      let rx ← e.regGet x
      let ry ← e.regGet y
      if rx == ry then some { e with pc := (e.pc + 2) % 65536 }
      else some e
    | _, _ => some e
  | 0x6 =>
    match instr.op1, instr.op2 with
    | some x, some b => e.regSet x (b % 256)
    | _, _ => some e
  | 0x7 =>
    match instr.op1, instr.op2 with
    | some x, some b => do
      let rx ← e.regGet x
      e.regSet x ((rx + b % 256) % 256)
    | _, _ => some e
  | 0x8 =>
    match instr.op1, instr.op2, instr.op3 with
    | some x, some y, some 0x0 => do
      let ry ← e.regGet y
      e.regSet x ry
    | some x, some y, some 0x1 => do
      let rx ← e.regGet x
      let ry ← e.regGet y
      e.regSet x (rx ||| ry)
    | some x, some y, some 0x2 => do
      let rx ← e.regGet x
      let ry ← e.regGet y
      e.regSet x (rx &&& ry)
    | some x, some y, some 0x3 => do
      let rx ← e.regGet x
      let ry ← e.regGet y
      e.regSet x (rx ^^^ ry)
    | some x, some y, some 0x4 => do
      let rx ← e.regGet x
      let ry ← e.regGet y
      let sum := rx + ry
      if sum > 0xff then do
        let e1 ← e.regSet 0xf 1
        e1.regSet x 0xff
      else e.regSet x (sum % 256)
    | some x, some y, some 0x5 => do
      let rx ← e.regGet x
      let ry ← e.regGet y
      let e1 ← e.regSet 0xf (if rx > ry then 1 else 0)
      let rx2 ← e1.regGet x
      let ry2 ← e1.regGet y
      e1.regSet x ((rx2 + 256 - ry2) % 256)
    | some x, some _, some 0x6 => do
      let rx ← e.regGet x
      let e1 ← e.regSet 0xf (if rx &&& 0x1 == 1 then 1 else 0)
      let rx2 ← e1.regGet x
      e1.regSet x (rx2 / 2)
    | some x, some y, some 0x7 => do
      let rx ← e.regGet x
      let ry ← e.regGet y
      let e1 ← e.regSet 0xf (if rx < ry then 1 else 0)
      let rx2 ← e1.regGet x
      let ry2 ← e1.regGet y
      e1.regSet x ((ry2 + 256 - rx2) % 256)
    | some x, some _, some 0xE => do
      let rx ← e.regGet x
      let e1 ← e.regSet 0xf (if (rx >>> 7) &&& 0x1 == 1 then 1 else 0)
      let rx2 ← e1.regGet x
      e1.regSet x ((rx2 * 2) % 256)
    | _, _, _ => some e
  | 0x9 =>
    match instr.op1, instr.op2 with
    | some x, some y => do
      let rx ← e.regGet x
      let ry ← e.regGet y
      if rx != ry then some { e with pc := (e.pc + 2) % 65536 }
      else some e
    | _, _ => some e
  | 0xA =>
    match instr.op1 with
    | some n => some { e with idx := n }
    | none => some e
  | 0xB =>
    match instr.op1 with
    | some n => do
      let r0 ← e.regGet 0
      some { e with pc := (r0 + n) % 65536 }
    | none => some e
  | 0xC =>
    match instr.op1, instr.op2 with
    | some x, some n => e.regSet x ((n % 256) &&& (randv &&& 0xff))
    | _, _ => some e
  | 0xD =>
    match instr.op1, instr.op2, instr.op3 with
    | some x, some y, some n0 => do
      let n := n0 % 256
      if n > 15 then none
      else do
        let sprite ← readSprite e n
        let vx ← e.regGet x
        let vy ← e.regGet y
        let px := vx + vy * 32
        let (e2, vf) ← drawRows e px 0 sprite
        e2.regSet 0xF vf
    | _, _, _ => some e
  | 0xE =>
    match instr.op1, instr.op2 with
    | some x, some 0x9E => do
      let rx ← e.regGet x
      if rx < 16 then
        if key rx then some { e with pc := (e.pc + 2) % 65536 } else some e
      else none
    | some x, some 0xA1 => do
      let rx ← e.regGet x
      if rx < 16 then
        if !key rx then some { e with pc := (e.pc + 2) % 65536 } else some e
      else none
    | _, _ => some e
  | 0xF =>
    match instr.op1, instr.op2 with
    | some x, some 0x07 => e.regSet x e.delay
    | some x, some 0x0A =>
      match (List.range 16).find? key with
      | some i => e.regSet x i
      | none => some { e with pc := (e.pc + 65534) % 65536 }
    | some x, some 0x15 => do
      let rx ← e.regGet x
      some { e with delay := rx }
    | some x, some 0x18 => do
      let rx ← e.regGet x
      some { e with sound := rx }
    | some x, some 0x1E => do
      let rx ← e.regGet x
      some { e with idx := (e.idx + rx) % 65536 }
    | some x, some 0x29 => do
      let rx ← e.regGet x
      some { e with idx := (rx * 5) % 256 }
    | some x, some 0x33 => do
      let rx ← e.regGet x
      let e1 ← e.putWord e.idx ((rx / 100) % 10)
      let e2 ← e1.putWord (e.idx + 1) ((rx / 10) % 10)
      e2.putWord (e.idx + 2) (rx % 10)
    | some x, some 0x55 => storeRegs e e.idx (List.range x)
    | some x, some 0x65 => loadRegs e e.idx (List.range x)
    | _, _ => some e
  | _ => some e

/-! Concrete machine states and inputs used to evaluate the code. -/

/-- Key-state provider with no key held. -/
def kOff : Nat → Bool := fun _ => false

/-- State for the draw test: `V0 = 0` (the x register), `V1 = 1` (the y
register), index register at 0x300 where a one-row sprite `0x80`
(leftmost pixel set) is stored. -/
def eC1 : Emulator :=
  { Emulator.init with
    idx := 0x300
    mem := setIdx init_font 0x300 0x80
    reg := setIdx (fun _ => 0) 1 1 }

/-- State whose display has pixel 0 set and every other pixel clear. -/
def eC2 : Emulator :=
  { Emulator.init with disp := setIdx (fun _ => 0) 0 1 }

/-- State with `V15 = 7`, `V0 = 1`, `V1 = 2`. -/
def eC3 : Emulator :=
  { Emulator.init with reg := setIdx (setIdx (setIdx (fun _ => 0) 0 1) 1 2) 15 7 }

/-- State with `V0 = 200`, `V1 = 100` (their sum carries past 255). -/
def eC4 : Emulator :=
  { Emulator.init with reg := setIdx (setIdx (fun _ => 0) 0 200) 1 100 }

/-- State with `V0 = 1`, `V1 = 1`, `V15 = 1` (no carry in `V0 + V1`). -/
def eC4b : Emulator :=
  { Emulator.init with reg := setIdx (setIdx (setIdx (fun _ => 0) 0 1) 1 1) 15 1 }

/-- State with `V0 = 7` and the index register at 0x300 (memory there is
0). -/
def eC5 : Emulator :=
  { Emulator.init with idx := 0x300, reg := setIdx (fun _ => 0) 0 7 }

/-- State with `V0 = 7`, `V1 = 5` and the index register at 0x300. -/
def eC5b : Emulator :=
  { Emulator.init with
    idx := 0x300
    reg := setIdx (setIdx (fun _ => 0) 0 7) 1 5 }

/-- State with `mem[0x300] = 9`, all registers 0, index register at
0x300. -/
def eC5c : Emulator :=
  { Emulator.init with idx := 0x300, mem := setIdx init_font 0x300 9 }

/-- State at a fetch-advanced program counter 0x202 with `V0 = 1 ≠ V1 =
2`. -/
def eC6 : Emulator :=
  { Emulator.init with
    pc := 0x202
    reg := setIdx (setIdx (fun _ => 0) 0 1) 1 2 }

/-- Sequence of pushes applied to a stack. -/
def pushAll (s : Stack) (ps : List Nat) : Stack := ps.foldl Stack.push s

/-- Results of `n` successive pops (each pop's return value, in order),
together with the remaining stack. -/
def popN : Nat → Stack → List (Option Nat) × Stack
  | 0, s => ([], s)
  | n + 1, s =>
    let (r, s1) := Stack.pop s
    let (rs, s2) := popN n s1
    (r :: rs, s2)

/-! Helper lemmas. -/

theorem regGet_lt (e : Emulator) (i : Nat) (h : i < REG_COUNT) :
    e.regGet i = some (e.reg i) := by
  simp [Emulator.regGet, h]

theorem regSet_lt (e : Emulator) (i v : Nat) (h : i < REG_COUNT) :
    e.regSet i v = some { e with reg := setIdx e.reg i v } := by
  simp [Emulator.regSet, h]

theorem setIdx_self (f : Nat → Nat) (i v : Nat) : setIdx f i v i = v := by
  simp [setIdx]

theorem setIdx_ne (f : Nat → Nat) (i v j : Nat) (h : j ≠ i) :
    setIdx f i v j = f j := by
  simp [setIdx, h]

theorem popN_length_eq (s : Stack) : popN s.length s = (s.map some, []) := by
  induction s with
  | nil => rfl
  | cons a t ih => simp [popN, Stack.pop, ih]

theorem pushAll_eq_reverse_append (ps : List Nat) :
    ∀ s : Stack, pushAll s ps = ps.reverse ++ s := by
  induction ps with
  | nil => intro s; rfl
  | cons a t ih =>
    intro s
    simp [pushAll, Stack.push, List.foldl] at ih ⊢
    simp [ih (a :: s)]

/-! Theorems settling the claims. -/

/-- Claim C1: the claim says each sprite bit lands at stable linear index
`y*64 + x`; with `V0 = 0`, `V1 = 1` and a one-row sprite `0x80`, the
sprite's (row 0, column 0) bit should land at pixel `1*64 + 0 = 64`.
Evaluating the code: pixel 64 stays clear and pixel 32 is set instead,
because `execute` computes the starting index as `Vx + Vy * 32`
(row stride 32) even though row advancement inside the same draw and the
renderer's own indexing use stride 64. -/
theorem C1_draw_row_stride_32 :
    ((execute eC1 (decode 0xD011) 0 kOff).bind (fun e2 => e2.readPixel 32) = some 1)
    ∧ ((execute eC1 (decode 0xD011) 0 kOff).bind (fun e2 => e2.readPixel 64) = some 0) := by
  constructor <;> decide

/-- Claim C2: the claim says `writePixel` returns 1 exactly when the
pixel was 1 and the XORed-in bit is 1.  Evaluating the code: XORing bit
0 into a clear pixel (no 1-to-0 transition) returns 1, and XORing bit 1
into a set pixel (a genuine 1-to-0 transition) returns 0 — the code
returns 1 precisely when the display byte is unchanged, the opposite of
the claimed collision indicator. -/
theorem C2_writePixel_returns_unchanged_indicator :
    ((Emulator.init.writePixel 0 0).map Prod.snd = some 1)
    ∧ ((eC2.writePixel 0 1).map Prod.snd = some 0) := by
  constructor <;> decide

/-- Claim C3, counterexample: executing the register-OR instruction
`0x8011` on a state whose flag register holds 7 leaves the flag register
at 7 — not any 0/1 indicator — so the register-to-register group does
not unconditionally overwrite register 15. -/
theorem C3_logic_keeps_flag_counterexample :
    ((execute eC3 (decode 0x8011) 0 kOff).bind (fun e2 => e2.regGet 15) = some 7)
    ∧ (7 : Nat) ≠ 0 ∧ (7 : Nat) ≠ 1 := by
  refine ⟨by decide, by decide, by decide⟩

/-- Claim C3, amended: OR, AND and XOR write only the numeric result and
never write the flag register (conjuncts 1-3: register 15 is unchanged
whenever it is not the destination); add writes the flag only in the
carry branch, setting it to 1 (conjuncts 4-5); the two subtract orders
and the two shifts do unconditionally write a 0/1 borrow/shift-out
indicator (conjuncts 6-9), but each writes the flag before the numeric
result, so the numeric-result write is the final effect: when the
destination is register 15 the numeric result, computed from the
already-updated flag register, overwrites the indicator — a carrying
add into register 15 ends at 0xFF, a right shift into register 15 ends
at 0, a left shift ends at twice the shifted-out bit, and the subtracts
end at the wrapped difference taken with the flag value standing in for
the old register 15 (conjuncts 10-14). -/
theorem C3_flag_amended (e : Emulator) (x y randv : Nat) (key : Nat → Bool)
    (hx : x < 16) (hy : y < 16) :
    (x ≠ 15 →
      (execute e ⟨0x8, some x, some y, some 0x1⟩ randv key).bind
        (fun e2 => e2.regGet 15) = e.regGet 15)
    ∧ (x ≠ 15 →
      (execute e ⟨0x8, some x, some y, some 0x2⟩ randv key).bind
        (fun e2 => e2.regGet 15) = e.regGet 15)
    ∧ (x ≠ 15 →
      (execute e ⟨0x8, some x, some y, some 0x3⟩ randv key).bind
        (fun e2 => e2.regGet 15) = e.regGet 15)
    ∧ (x ≠ 15 → e.reg x + e.reg y ≤ 255 →
      (execute e ⟨0x8, some x, some y, some 0x4⟩ randv key).bind
        (fun e2 => e2.regGet 15) = e.regGet 15)
    ∧ (x ≠ 15 → 255 < e.reg x + e.reg y →
      (execute e ⟨0x8, some x, some y, some 0x4⟩ randv key).bind
        (fun e2 => e2.regGet 15) = some 1)
    ∧ (x ≠ 15 →
      (execute e ⟨0x8, some x, some y, some 0x5⟩ randv key).bind
        (fun e2 => e2.regGet 15) = some (if e.reg x > e.reg y then 1 else 0))
    ∧ (x ≠ 15 →
      (execute e ⟨0x8, some x, some y, some 0x7⟩ randv key).bind
        (fun e2 => e2.regGet 15) = some (if e.reg x < e.reg y then 1 else 0))
    ∧ (x ≠ 15 →
      (execute e ⟨0x8, some x, some y, some 0x6⟩ randv key).bind
        (fun e2 => e2.regGet 15) = some (if e.reg x &&& 0x1 == 1 then 1 else 0))
    ∧ (x ≠ 15 →
      (execute e ⟨0x8, some x, some y, some 0xE⟩ randv key).bind
        (fun e2 => e2.regGet 15)
        = some (if (e.reg x >>> 7) &&& 0x1 == 1 then 1 else 0))
    ∧ (255 < e.reg 15 + e.reg y →
      (execute e ⟨0x8, some 15, some y, some 0x4⟩ randv key).bind
        (fun e2 => e2.regGet 15) = some 0xff)
    ∧ ((execute e ⟨0x8, some 15, some y, some 0x6⟩ randv key).bind
        (fun e2 => e2.regGet 15) = some 0)
    ∧ ((execute e ⟨0x8, some 15, some y, some 0xE⟩ randv key).bind
        (fun e2 => e2.regGet 15)
        = some ((if (e.reg 15 >>> 7) &&& 0x1 == 1 then 1 else 0) * 2 % 256))
    ∧ (y ≠ 15 →
      (execute e ⟨0x8, some 15, some y, some 0x5⟩ randv key).bind
        (fun e2 => e2.regGet 15)
        = some (((if e.reg 15 > e.reg y then 1 else 0) + 256 - e.reg y) % 256))
    ∧ (y ≠ 15 →
      (execute e ⟨0x8, some 15, some y, some 0x7⟩ randv key).bind
        (fun e2 => e2.regGet 15)
        = some ((e.reg y + 256 - (if e.reg 15 < e.reg y then 1 else 0)) % 256)) := by
  have h16 : (16 : Nat) ≤ REG_COUNT := by simp [REG_COUNT]
  have hxr : x < REG_COUNT := lt_of_lt_of_le hx h16
  have hyr : y < REG_COUNT := lt_of_lt_of_le hy h16
  have h15r : (15 : Nat) < REG_COUNT := by simp [REG_COUNT]
  refine ⟨?_, ?_, ?_, ?_, ?_, ?_, ?_, ?_, ?_, ?_, ?_, ?_, ?_, ?_⟩
  · intro hx15
    simp [execute, regGet_lt _ _ hxr, regGet_lt _ _ hyr, regSet_lt _ _ _ hxr,
      regGet_lt _ _ h15r, setIdx_ne _ _ _ _ (Ne.symm hx15)]
  · intro hx15
    simp [execute, regGet_lt _ _ hxr, regGet_lt _ _ hyr, regSet_lt _ _ _ hxr,
      regGet_lt _ _ h15r, setIdx_ne _ _ _ _ (Ne.symm hx15)]
  · intro hx15
    simp [execute, regGet_lt _ _ hxr, regGet_lt _ _ hyr, regSet_lt _ _ _ hxr,
      regGet_lt _ _ h15r, setIdx_ne _ _ _ _ (Ne.symm hx15)]
  · intro hx15 hsum
    have hns : ¬ (255 < e.reg x + e.reg y) := by omega
    simp [execute, regGet_lt _ _ hxr, regGet_lt _ _ hyr, regSet_lt _ _ _ hxr,
      regGet_lt _ _ h15r, setIdx_ne _ _ _ _ (Ne.symm hx15), hns]
  · intro hx15 hsum
    simp [execute, regGet_lt _ _ hxr, regGet_lt _ _ hyr, regSet_lt _ _ _ hxr,
      regSet_lt _ _ _ h15r, regGet_lt _ _ h15r, hsum,
      setIdx_ne _ _ _ _ (Ne.symm hx15), setIdx_self]
  · intro hx15
    simp [execute, regGet_lt _ _ hxr, regGet_lt _ _ hyr, regSet_lt _ _ _ hxr,
      regSet_lt _ _ _ h15r, regGet_lt _ _ h15r,
      setIdx_ne _ _ _ _ (Ne.symm hx15), setIdx_ne _ _ _ _ hx15, setIdx_self]
  · intro hx15
    simp [execute, regGet_lt _ _ hxr, regGet_lt _ _ hyr, regSet_lt _ _ _ hxr,
      regSet_lt _ _ _ h15r, regGet_lt _ _ h15r,
      setIdx_ne _ _ _ _ (Ne.symm hx15), setIdx_ne _ _ _ _ hx15, setIdx_self]
  · intro hx15
    simp [execute, regGet_lt _ _ hxr, regSet_lt _ _ _ hxr,
      regSet_lt _ _ _ h15r, regGet_lt _ _ h15r,
      setIdx_ne _ _ _ _ (Ne.symm hx15), setIdx_ne _ _ _ _ hx15, setIdx_self]
  · intro hx15
    simp [execute, regGet_lt _ _ hxr, regSet_lt _ _ _ hxr,
      regSet_lt _ _ _ h15r, regGet_lt _ _ h15r,
      setIdx_ne _ _ _ _ (Ne.symm hx15), setIdx_ne _ _ _ _ hx15, setIdx_self]
  · intro hsum
    simp [execute, regGet_lt _ _ hyr, regSet_lt _ _ _ h15r,
      regGet_lt _ _ h15r, hsum, setIdx_self]
  · simp [execute, regGet_lt _ _ h15r, regSet_lt _ _ _ h15r, setIdx_self]
    split <;> simp
  · simp [execute, regGet_lt _ _ h15r, regSet_lt _ _ _ h15r, setIdx_self]
  · intro hy15
    simp [execute, regGet_lt _ _ hyr, regGet_lt _ _ h15r, regSet_lt _ _ _ h15r,
      setIdx_ne _ _ _ _ hy15, setIdx_self]
  · intro hy15
    simp [execute, regGet_lt _ _ hyr, regGet_lt _ _ h15r, regSet_lt _ _ _ h15r,
      setIdx_ne _ _ _ _ hy15, setIdx_self]

/-- Claim C3, witness: the amended theorem applied at a concrete state
(the reset state, `x = 0`, `y = 1`), its hypotheses discharged by
evaluation. -/
theorem C3_flag_amended_witness :
    (0 : Nat) < 16 ∧ (1 : Nat) < 16 ∧ (0 : Nat) ≠ 15 ∧
    ((execute Emulator.init ⟨0x8, some 0, some 1, some 0x1⟩ 0 kOff).bind
      (fun e2 => e2.regGet 15) = Emulator.init.regGet 15) :=
  ⟨by decide, by decide, by decide,
    (C3_flag_amended Emulator.init 0 1 0 kOff (by decide) (by decide)).1 (by decide)⟩

/-- Claim C4: the claim says add-with-carry writes `(Vx + Vy) mod 256`
and always writes a 0/1 carry flag.  Evaluating the code: with `V0 =
200`, `V1 = 100` the destination receives 255 (the code saturates to
0xFF on carry instead of writing `300 mod 256 = 44`), and with `V0 = V1
= 1` and the flag register previously 1, the flag register still holds 1
after the add (the code writes the flag only in the carry branch, so
the claimed unconditional 0 write does not happen). -/
theorem C4_add_saturates_no_wrap :
    ((execute eC4 (decode 0x8014) 0 kOff).bind (fun e2 => e2.regGet 0) = some 255)
    ∧ ((execute eC4b (decode 0x8014) 0 kOff).bind (fun e2 => e2.regGet 15) = some 1) := by
  constructor <;> decide

/-- Claim C5: the claim says store/load cover registers `0..=x`
inclusive.  Evaluating the code: with `x = 0` the store writes nothing
(memory at the index register still holds 0 although `V0 = 7`), with
`x = 1` the store writes only `V0` (memory at `idx + 1` still holds 0
although `V1 = 5`), and with `x = 0` the load reads nothing (`V0` stays
0 although `mem[idx] = 9`) — the loops run over the exclusive range
`0..x`. -/
theorem C5_store_load_range_exclusive :
    ((execute eC5 (decode 0xF055) 0 kOff).bind (fun e2 => e2.getWord 0x300) = some 0)
    ∧ (eC5.regGet 0 = some 7)
    ∧ ((execute eC5b (decode 0xF155) 0 kOff).bind (fun e2 => e2.getWord 0x301) = some 0)
    ∧ (eC5b.regGet 1 = some 5)
    ∧ ((execute eC5c (decode 0xF065) 0 kOff).bind (fun e2 => e2.regGet 0) = some 0)
    ∧ (eC5c.getWord 0x300 = some 9) := by
  refine ⟨by decide, by decide, by decide, by decide, by decide, by decide⟩

/-- Claim C6: the claim says opcode 9 skips (extra `pc += 2`) when the
two registers differ.  Evaluating the code: `Instruction::new` lists
opcode 9 in none of its three parse layouts, so `0x9010` decodes with
`op1 = none`; `execute` then falls into the diagnostic branch and the
program counter stays at the fetch-advanced value 0x202 even though
`V0 = 1 ≠ V1 = 2`. -/
theorem C6_skip_ne_never_decoded :
    ((decode 0x9010).op1 = none)
    ∧ ((execute eC6 (decode 0x9010) 0 kOff).map (fun e2 => e2.pc) = some 0x202)
    ∧ (eC6.regGet 0 ≠ eC6.regGet 1) := by
  refine ⟨by decide, by decide, by decide⟩

/-- Claim C7: the claim says every engine memory access stays strictly
below the 4096-byte memory size.  Evaluating the code: from the reset
state, `0xAFFF` sets the index register to 0x0FFF = 4095, and the BCD
store `0xF033` then writes `mem[idx]`, `mem[idx+1]`, `mem[idx+2]` —
addresses 4095, 4096, 4097, the last two past the end of memory, so the
unchecked Rust indexing panics (`none`); no masking or validation
guards these accesses. -/
theorem C7_bcd_store_past_memory_end :
    (execute Emulator.init (decode 0xAFFF) 0 kOff).bind
      (fun e2 => execute e2 (decode 0xF033) 0 kOff) = none := rfl

/-- Claim C8: the claim says an image whose length plus 0x200 exceeds
4096 fails with an `ImageTooLarge` error surfaced to the caller.
Evaluating the code: `loadROM` performs an unchecked `copy_from_slice`,
so a 3900-byte image (0x200 + 3900 = 4412 > 4096) panics (`none`) —
an uncontrolled crash; the code defines no `ImageTooLarge` error at
all. -/
theorem C8_loadROM_oversize_crash :
    (Emulator.init.loadROM (List.replicate 3900 0)).isNone = true := by
  have hl : (List.replicate 3900 (0 : Nat)).length = 3900 :=
    List.length_replicate 3900 0
  rw [Emulator.loadROM, hl]
  norm_num [MEM_SIZE, Emulator.PROGRAM_START]

/-- Claim C9: for any sequence of pushed values `p1..pn`, performing `n`
pops returns `pn..p1` (last-in-first-out), and a pop on the empty stack
returns `none`, never a stale value. -/
theorem C9_stack_lifo :
    (∀ ps : List Nat,
      (popN ps.length (pushAll [] ps)).1 = ps.reverse.map some)
    ∧ Stack.pop [] = (none, []) := by
  refine ⟨fun ps => ?_, rfl⟩
  have h1 : pushAll [] ps = ps.reverse := by
    simpa using pushAll_eq_reverse_append ps []
  rw [h1, show ps.length = ps.reverse.length from (List.length_reverse ps).symm,
    popN_length_eq ps.reverse]

/-- Claim C9, witness: the stack law applied at the concrete push
sequence `[1, 2, 3]`. -/
theorem C9_stack_lifo_witness :
    (popN 3 (pushAll [] [1, 2, 3])).1 = [some 3, some 2, some 1]
    ∧ Stack.pop [] = (none, []) :=
  ⟨by simpa using C9_stack_lifo.1 [1, 2, 3], C9_stack_lifo.2⟩

/-- Claim C10: a tick leaves a zero timer at zero and decrements a
positive timer by exactly one (never below zero), for both the delay and
the sound timer, and 60 ticks starting from 200 leave exactly 140. -/
theorem C10_timer_clamp :
    (∀ s : Nat, (tick1 0 s).1 = 0)
    ∧ (∀ d : Nat, (tick1 d 0).2 = 0)
    ∧ (∀ d s : Nat, (tick1 (d + 1) s).1 = d)
    ∧ (∀ d s : Nat, (tick1 d (s + 1)).2 = s)
    ∧ (fun p : Nat × Nat => tick1 p.1 p.2)^[60] (200, 200) = (140, 140) := by
  refine ⟨fun s => rfl, fun d => by simp [tick1, tickTimer],
    fun d s => by simp [tick1, tickTimer], fun d s => by simp [tick1, tickTimer], ?_⟩
  set_option maxRecDepth 4000 in decide

/-- Claim C10, witness: the timer law applied at concrete values. -/
theorem C10_timer_clamp_witness :
    (tick1 0 5).1 = 0 ∧ (tick1 200 0).1 = 199 :=
  ⟨C10_timer_clamp.1 5, C10_timer_clamp.2.2.1 199 0⟩

end Chip8
